import Mathlib

/-!
Verification of the DataSafe backup pipeline (src/core.py, src/manager.py,
src/main.py, src/models.py) against its specification.

Shallow embedding conventions:
* Python strings are `List Char`.
* Filesystem paths are lists of path components (`List (List Char)`).
* Python `datetime` values are `PyDateTime` records at second resolution
  (the formatting used by the code never reads microseconds).
* Fallible operations return `Except PipelineError _`; exceptions that the
  code injects from the environment (I/O failures) are modelled as explicit
  boolean/`Except` parameters of the embedded functions.
-/

namespace DataSafe

/-- Errors raised by the pipeline, one constructor per `raise` site reachable
in the source (`ValueError` for an invalid source directory, `ValueError` for
an unsupported compression type, the re-raised `mkdir` failure, and the
re-raised metadata-insert failure). -/
inductive PipelineError where
  | invalidSource
  | unsupportedFormat
  | storageError
  | catalogWriteError
  deriving Repr, DecidableEq

/-! ### CompressionType (src/core.py lines 13-20) -/

/-- `class CompressionType(Enum)` with members TAR, TAR_GZ, ZIP. -/
inductive CompressionType where
  | TAR
  | TAR_GZ
  | ZIP
  deriving Repr, DecidableEq

/-- The `.value` attribute of each enum member: "tar", "tar.gz", "zip". -/
def CompressionType.value : CompressionType → List Char
  | .TAR => ['t', 'a', 'r']
  | .TAR_GZ => ['t', 'a', 'r', '.', 'g', 'z']
  | .ZIP => ['z', 'i', 'p']

/-- The keys of `cls._value2member_map_`: the value of every member. -/
def CompressionType.memberValues : List (List Char) :=
  [CompressionType.TAR.value, CompressionType.TAR_GZ.value, CompressionType.ZIP.value]

/-- `CompressionType.has_value(value)`: `value in cls._value2member_map_`. -/
def CompressionType.has_value (v : List Char) : Bool :=
  CompressionType.memberValues.contains v

/-! ### SourceDirectory._make_safe_name (src/core.py lines 43-46) -/

/-- The character class of the regex `[<>:"/\\|?*]` in `_make_safe_name`. -/
def forbiddenChars : List Char :=
  ['<', '>', ':', '\"', '/', '\\', '|', '?', '*']

/-- `name.replace(" ", "_")`: replace every space with an underscore. -/
def replaceSpaces (s : List Char) : List Char :=
  s.map (fun c => if c = ' ' then '_' else c)

/-- `re.sub(r'[<>:"/\\|?*]', "_", name)`: replace every occurrence of a
character of the class with an underscore. -/
def subForbidden (s : List Char) : List Char :=
  s.map (fun c => if forbiddenChars.contains c then '_' else c)

/-- `SourceDirectory._make_safe_name`: spaces first, then the character class. -/
def make_safe_name (s : List Char) : List Char :=
  subForbidden (replaceSpaces s)

/-! ### datetime and strftime -/

/-- A Python `datetime` at second resolution (microseconds are never read by
the formatting the code performs, and `_get_size`, naming and the catalog
columns only use these six fields through `strftime`). -/
structure PyDateTime where
  year : Nat
  month : Nat
  day : Nat
  hour : Nat
  minute : Nat
  second : Nat
  deriving Repr, DecidableEq

/-- ASCII digit character for `n % 10`. -/
def digitChar (n : Nat) : Char := Char.ofNat (48 + n % 10)

/-- Two-digit zero-padded decimal field, as produced by `%m %d %H %M %S`. -/
def pad2 (n : Nat) : List Char := [digitChar (n / 10), digitChar n]

/-- Four-digit zero-padded decimal field, as produced by `%Y` for the years a
filesystem timestamp carries. -/
def pad4 (n : Nat) : List Char :=
  [digitChar (n / 1000), digitChar (n / 100), digitChar (n / 10), digitChar n]

/-- `backup_date.strftime("%Y-%m-%d-%H%M%S")` (src/core.py line 118). -/
def strftimeBackup (t : PyDateTime) : List Char :=
  pad4 t.year ++ ['-'] ++ pad2 t.month ++ ['-'] ++ pad2 t.day ++ ['-'] ++
    pad2 t.hour ++ pad2 t.minute ++ pad2 t.second

/-! ### BackupArchive naming (src/core.py lines 115-128) -/

/-- `BackupArchive._make_backup_name`: `base_name = self.backup_name or
self.source.name` (Python `or` also skips an empty string), then
`_make_safe_name(base_name)` and the `-`-separated timestamp suffix. -/
def make_backup_name (backup_name : Option (List Char)) (source_name : List Char)
    (backup_date : PyDateTime) : List Char :=
  let base_name :=
    match backup_name with
    | none => source_name
    | some b => if b = [] then source_name else b
  make_safe_name base_name ++ ['-'] ++ strftimeBackup backup_date

/-- `BackupArchive._get_backup_file_path`: `ext = compression_type.value if
compressed else ""`; the file is `backup_path / f"{backup_name}.{ext}"` when
`ext` is truthy (non-empty) and `backup_path / backup_name` otherwise. Paths
are lists of components, so `/` appends one component. -/
def get_backup_file_path (backup_path : List (List Char)) (backup_name : List Char)
    (compressed : Bool) (compression_type : CompressionType) : List (List Char) :=
  let ext : List Char := if compressed then compression_type.value else []
  if ext ≠ [] then backup_path ++ [backup_name ++ '.' :: ext]
  else backup_path ++ [backup_name]

/-! ### Filesystem traversal model

`Path.rglob("*")` yields every entry below the source root, of any kind.
An `FSEntry` is one yielded entry: its path relative to the traversal root
and its kind. Python's `Path.is_file()` follows symlinks, and `stat()` also
follows symlinks, so a symlink whose target is a regular file passes the
`is_file()` filter and contributes its target's size. -/

/-- Kind of a directory entry as the `pathlib` predicates observe it. -/
inductive FSKind where
  | file (size : Nat)
  | directory
  | symlinkToFile (targetSize : Nat)
  | symlinkToDir
  | symlinkBroken
  deriving Repr, DecidableEq

/-- One entry yielded by `rglob("*")`. -/
structure FSEntry where
  relpath : List (List Char)
  kind : FSKind
  deriving Repr, DecidableEq

/-- Python `f.is_file()` (follows symlinks). -/
def pyIsFile : FSKind → Bool
  | .file _ => true
  | .symlinkToFile _ => true
  | _ => false

/-- Python `f.stat().st_size` (follows symlinks); other kinds never reach it
behind the `is_file()` filter, so their value is irrelevant and set to 0. -/
def pyStatSize : FSKind → Nat
  | .file n => n
  | .symlinkToFile n => n
  | _ => 0

/-- An entry is a regular file itself (no symlink involved): the notion the
spec uses when it says "regular files, symlinks and directories excluded". -/
def isRegularFile : FSKind → Bool
  | .file _ => true
  | _ => false

/-! ### SourceDirectory._get_size (src/core.py lines 48-53) -/

/-- `SourceDirectory._get_size`: `sum(f.stat().st_size for f in
self.path.rglob("*") if f.is_file())` inside `try`, returning 0 on any
exception of the traversal. The traversal outcome (the entry list, or the
exception) is the explicit argument. -/
def get_size (traversal : Except PipelineError (List FSEntry)) : Nat :=
  match traversal with
  | .ok entries =>
      ((entries.filter (fun e => pyIsFile e.kind)).map (fun e => pyStatSize e.kind)).sum
  | .error _ => 0

/-- Modelled from the spec (§4.1/§8, not a function of the source): the sum
of the sizes of the regular files among the yielded entries, directories and
symlinks excluded — what the claim says `_get_size` computes. -/
def spec_regular_file_sum (entries : List FSEntry) : Nat :=
  ((entries.filter (fun e => isRegularFile e.kind)).map (fun e => pyStatSize e.kind)).sum

/-! ### SourceDirectory.__post_init__ (src/core.py lines 31-41) -/

/-- The fields of a constructed `SourceDirectory` that later steps read. -/
structure SourceDirectoryM where
  name : List Char
  size : Option Nat
  date : PyDateTime
  deriving Repr, DecidableEq

/-- `SourceDirectory.__post_init__`: validity check, safe name from the
path's final component, modification date with a fallback to the current
time on a stat failure, and the optional size. Environment observations are
explicit arguments: `path_exists`/`path_is_dir` for `exists()`/`is_dir()`,
`final_component` for `path.name`, `mtime` (`none` when `stat` raised),
`now` for `datetime.now().replace(microsecond=0)`, and `traversal` for the
`rglob` outcome that `_get_size` consumes. -/
def sourceDirectory_post_init (path_exists path_is_dir : Bool)
    (final_component : List Char) (mtime : Option PyDateTime) (now : PyDateTime)
    (calculate_size : Bool) (traversal : Except PipelineError (List FSEntry)) :
    Except PipelineError SourceDirectoryM :=
  if !path_exists || !path_is_dir then
    .error .invalidSource
  else
    .ok { name := make_safe_name final_component
          date := match mtime with
                  | some t => t
                  | none => now
          size := if calculate_size then some (get_size traversal) else none }

/-! ### BackupArchive write steps (src/core.py lines 130-158) -/

/-- One member of a produced zip archive: the `arcname` passed to
`ZipFile.write` and whether the written filesystem entry was a directory
(`ZipFile.write` stores a directory entry for those). -/
structure ZipEntry where
  arcname : List (List Char)
  isDir : Bool
  deriving Repr, DecidableEq

/-- `ZipFile.write(file, arcname)` treats an entry as a directory when
`os.stat` (following symlinks) says so. -/
def zipWriteIsDir : FSKind → Bool
  | .directory => true
  | .symlinkToDir => true
  | _ => false

/-- The ZIP branch of `BackupArchive._compress`: for every entry yielded by
`self.source.path.rglob("*")` — files and directories alike — write it at
`arcname = Path(self.source.name) / file.relative_to(self.source.path)`. -/
def compress_zip (source_name : List Char) (entries : List FSEntry) : List ZipEntry :=
  entries.map (fun e => { arcname := source_name :: e.relpath
                          isDir := zipWriteIsDir e.kind })

/-- Modelled from the spec (§4.2 ZIP, not a function of the source): a zip
whose entries are exactly the regular files found by the traversal, each at
`safe_name/<path relative to source root>` — what the claim says the ZIP
branch produces. -/
def spec_zip_regular_files (source_name : List Char) (entries : List FSEntry) :
    List ZipEntry :=
  (entries.filter (fun e => isRegularFile e.kind)).map
    (fun e => { arcname := source_name :: e.relpath, isDir := false })

/-- A named subtree of the backup root: `FileTree` is file content or a
directory with named children. -/
inductive FileTree where
  | file (content : List Nat)
  | dir (children : List (List Char × FileTree))

/-- `BackupArchive._move`: `dest = self.backup_path / self.source.name`; if
`dest.exists()` log a warning and do nothing, else `shutil.copytree(source,
dest)`. The state is the association of names to subtrees directly under
`backup_path`; `dest.exists()` is a successful lookup of the name. -/
def move_op (backupDirContents : List (List Char × FileTree))
    (source_name : List Char) (source_tree : FileTree) :
    List (List Char × FileTree) :=
  if (backupDirContents.lookup source_name).isSome then
    backupDirContents
  else
    backupDirContents ++ [(source_name, source_tree)]

/-! ### BackupArchive.__post_init__ (src/core.py lines 79-113) -/

/-- Outcome of the attempted write step (`_compress` or `_move`): `success`
carries the size `backup_file.stat().st_size` observed afterwards (`none`
when `backup_file.exists()` is false); `failure` is a raised exception. -/
inductive WriteOutcome where
  | success (observedSize : Option Nat)
  | failure
  deriving Repr, DecidableEq

/-- The fields of a constructed `BackupArchive` that later steps read. -/
structure BackupArchiveM where
  backup_name : List Char
  backup_file : List (List Char)
  compressed : Bool
  compression_type : CompressionType
  compressed_size : Option Nat
  backup_date : PyDateTime
  deriving Repr, DecidableEq

/-- `BackupArchive.__post_init__`: the unsupported-format check
(`self.compressed and not CompressionType.has_value(self.compression_type.value)`),
the `backup_path.mkdir` attempt (re-raised on failure, `mkdirOk` is its
outcome), the name and file-path computation, then the write attempt whose
exceptions are caught: on a compressed write failure `compressed_size =
None`; on the copy branch `compressed_size = None` in both the try and the
except arm. -/
def backupArchive_post_init (source_name : List Char) (compressed : Bool)
    (backup_path : List (List Char)) (backup_name_arg : Option (List Char))
    (backup_date : PyDateTime) (compression_type : CompressionType)
    (mkdirOk : Bool) (write : WriteOutcome) :
    Except PipelineError BackupArchiveM :=
  if compressed && !(CompressionType.has_value compression_type.value) then
    .error .unsupportedFormat
  else if !mkdirOk then
    .error .storageError
  else
    let name := make_backup_name backup_name_arg source_name backup_date
    let file := get_backup_file_path backup_path name compressed compression_type
    let size : Option Nat :=
      if compressed then
        match write with
        | .success observed => observed
        | .failure => none
      else
        match write with
        | .success _ => none
        | .failure => none
    .ok { backup_name := name, backup_file := file, compressed := compressed
          compression_type := compression_type, compressed_size := size
          backup_date := backup_date }

/-! ### Catalog rows and session (src/models.py, src/manager.py lines 30-60) -/

/-- A row of the `directories` table (`DirectoryModel`). -/
structure DirectoryRow where
  id : Nat
  name : List Char
  path : List (List Char)
  size : Option Nat
  date : PyDateTime
  deriving Repr, DecidableEq

/-- A row of the `backups` table (`BackupModel`). -/
structure BackupRow where
  id : Nat
  directory_id : Nat
  backup_name : List Char
  backup_path : List (List Char)
  backup_size : Option Nat
  backup_date : PyDateTime
  compressed : Bool
  compression_type : Option (List Char)
  compressed_size : Option Nat
  deriving Repr, DecidableEq

/-- The two tables, with the next generated primary key of each. -/
structure DBState where
  directories : List DirectoryRow
  backups : List BackupRow
  nextDirectoryId : Nat
  nextBackupId : Nat
  deriving Repr, DecidableEq

/-- A SQLAlchemy session over the file-backed store: `committed` is what
other readers of the database see; `pending` is the state inside the
session's open transaction. `flush` and `add` act on `pending`; `commit`
publishes `pending`; `rollback` discards it. -/
structure DBSession where
  committed : DBState
  pending : DBState
  deriving Repr, DecidableEq

/-- `session.rollback()`. -/
def DBSession.rollback (s : DBSession) : DBSession :=
  { committed := s.committed, pending := s.committed }

/-- `session.add(dir_mod)` followed by `session.flush()`: the insert is sent
inside the transaction and the generated key becomes readable on the object. -/
def insertDirectory (st : DBState) (name : List Char) (path : List (List Char))
    (size : Option Nat) (date : PyDateTime) : DBState × Nat :=
  let did := st.nextDirectoryId
  ({ st with directories := st.directories ++ [{ id := did, name := name, path := path
                                                 size := size, date := date }]
             nextDirectoryId := did + 1 }, did)

/-- `session.add(backup_mod)`: the backup insert inside the transaction. -/
def insertBackup (st : DBState) (r : BackupRow) : DBState :=
  { st with backups := st.backups ++ [{ r with id := st.nextBackupId }]
            nextBackupId := st.nextBackupId + 1 }

/-- `BackupManager.save_backup_metadata` (src/manager.py lines 30-60): build
the directory row from the source, `add`+`flush` it, build the backup row
referencing `dir_mod.id`, `add` it, `commit`; on any exception inside the
`try`, `session.rollback()` and re-raise. The two points where the database
can refuse are explicit: `flushOk` (the directory insert) and `commitOk`
(the commit that performs the backup insert). The result pairs what the
caller observes with the session afterwards. -/
def save_backup_metadata (sess : DBSession) (source_path : List (List Char))
    (src : SourceDirectoryM) (arch : BackupArchiveM)
    (backup_path : List (List Char)) (flushOk commitOk : Bool) :
    Except PipelineError Unit × DBSession :=
  if !flushOk then
    (.error .catalogWriteError, sess.rollback)
  else
    let (p1, did) := insertDirectory sess.pending src.name source_path src.size src.date
    let backup_mod : BackupRow :=
      { id := 0, directory_id := did, backup_name := arch.backup_name
        backup_path := backup_path, backup_size := arch.compressed_size
        backup_date := arch.backup_date, compressed := arch.compressed
        compression_type := if arch.compressed then some arch.compression_type.value
                            else none
        compressed_size := arch.compressed_size }
    let p2 := insertBackup p1 backup_mod
    if !commitOk then
      (.error .catalogWriteError, { committed := sess.committed, pending := sess.committed })
    else
      (.ok (), { committed := p2, pending := p2 })

/-! ### BackupManager.__init__ (src/manager.py lines 8-28) -/

/-- Externally visible effects of a run: filesystem writes under the backup
root, and rows committed to the catalog. -/
structure WorldEffects where
  fsWrites : Nat
  directoryRows : Nat
  backupRows : Nat
  deriving Repr, DecidableEq

/-- `BackupManager.__init__`: open the database session (no write and no
row), construct the `SourceDirectory`, then the `BackupArchive`; any
exception is logged and re-raised. The returned effects count the filesystem
writes performed up to the point reached (`BackupArchive` construction is the
first operation that writes) and the catalog rows inserted (none — only
`save_backup_metadata` inserts). -/
def backupManager_init (path_exists path_is_dir : Bool)
    (final_component : List Char) (mtime : Option PyDateTime) (now : PyDateTime)
    (calculate_size : Bool) (traversal : Except PipelineError (List FSEntry))
    (compressed : Bool) (compression_type : CompressionType)
    (backup_path : List (List Char)) (backup_date : PyDateTime)
    (mkdirOk : Bool) (write : WriteOutcome) :
    Except PipelineError (SourceDirectoryM × BackupArchiveM) × WorldEffects :=
  match sourceDirectory_post_init path_exists path_is_dir final_component mtime now
      calculate_size traversal with
  | .error e => (.error e, { fsWrites := 0, directoryRows := 0, backupRows := 0 })
  | .ok src =>
      match backupArchive_post_init src.name compressed backup_path none backup_date
          compression_type mkdirOk write with
      | .error e => (.error e, { fsWrites := 0, directoryRows := 0, backupRows := 0 })
      | .ok arch => (.ok (src, arch),
                     { fsWrites := 1, directoryRows := 0, backupRows := 0 })

/-! ### main (src/main.py lines 8-26) -/

/-- Catalog-session lifecycle events of one process run. -/
inductive SessionEvent where
  | sessionOpen
  | sessionClose
  deriving Repr, DecidableEq

/-- `main`: inside one `try/except` (and no `finally`): `DatabaseManager()`
(its `__init__` creates a session), `create_db()`, `BackupManager(...)`
(whose `__init__` creates a second `DatabaseManager()`, hence a second
session), `save_backup_metadata()`, logging, `backup_mgr.close()`. An
exception from `BackupManager.__init__` or from `save_backup_metadata` jumps
to the `except` arm, which only logs. `initOk` is whether
`BackupManager.__init__` succeeded after its session was created, `recordOk`
whether `save_backup_metadata` succeeded. -/
def main_run (initOk recordOk : Bool) : List SessionEvent :=
  [.sessionOpen] ++ [.sessionOpen] ++
    (if initOk then (if recordOk then [.sessionClose] else []) else [])

/-- Number of session-open events of a run. -/
def opensOf (events : List SessionEvent) : Nat :=
  (events.filter (fun e => e = SessionEvent.sessionOpen)).length

/-- Number of session-close events of a run. -/
def closesOf (events : List SessionEvent) : Nat :=
  (events.filter (fun e => e = SessionEvent.sessionClose)).length

/-! ## Helper lemmas -/

theorem mem_replaceSpaces_ne_space {s : List Char} {c : Char}
    (hc : c ∈ replaceSpaces s) : c ≠ ' ' := by
  simp only [replaceSpaces, List.mem_map] at hc
  obtain ⟨a, _, rfl⟩ := hc
  by_cases h : a = ' ' <;> simp [h]

/-! ## Claim theorems -/

/-- C1: for every name string, the safe name derived by
`SourceDirectory._make_safe_name` — spaces replaced first, then each of
`< > : " / \ | ? *` — contains none of those characters and no spaces. -/
theorem make_safe_name_clean (s : List Char) (c : Char)
    (hc : c ∈ make_safe_name s) :
    forbiddenChars.contains c = false ∧ c ≠ ' ' := by
  simp only [make_safe_name, subForbidden, List.mem_map] at hc
  obtain ⟨a, ha, rfl⟩ := hc
  have ha' : a ≠ ' ' := mem_replaceSpaces_ne_space ha
  by_cases hf : forbiddenChars.contains a
  · rw [if_pos hf]
    exact ⟨by decide, by decide⟩
  · rw [if_neg hf]
    exact ⟨Bool.eq_false_iff.mpr hf, ha'⟩

/-- Witness for C1 at the concrete name `"a b<c"`. -/
theorem make_safe_name_clean_witness :
    '_' ∈ make_safe_name ['a', ' ', 'b', '<', 'c'] ∧
    forbiddenChars.contains '_' = false ∧ '_' ≠ ' ' :=
  ⟨by decide, make_safe_name_clean ['a', ' ', 'b', '<', 'c'] '_' (by decide)⟩

/-- C10: `has_value` applied to any enum member's own `.value` is true, so
the unsupported-format check in `BackupArchive.__post_init__` passes for
every member of `CompressionType` and the error branch is unreachable:
construction never yields that error, whatever the other inputs are. -/
theorem unsupported_format_unreachable (sn : List Char) (compressed : Bool)
    (bp : List (List Char)) (bn : Option (List Char)) (bd : PyDateTime)
    (ct : CompressionType) (mkdirOk : Bool) (write : WriteOutcome) :
    CompressionType.has_value ct.value = true ∧
    backupArchive_post_init sn compressed bp bn bd ct mkdirOk write ≠
      Except.error PipelineError.unsupportedFormat := by
  have hv : CompressionType.has_value ct.value = true := by cases ct <;> decide
  refine ⟨hv, ?_⟩
  unfold backupArchive_post_init
  rw [hv]
  simp only [Bool.not_true, Bool.and_false, Bool.false_eq_true, if_false]
  cases mkdirOk <;> simp

/-- C3: an exception raised during the write step (compression or copy) is
caught: `BackupArchive.__post_init__` still yields a constructed archive,
its `compressed_size` is `None`, and no error reaches the caller. -/
theorem write_failure_swallowed (sn : List Char) (compressed : Bool)
    (bp : List (List Char)) (bn : Option (List Char)) (bd : PyDateTime)
    (ct : CompressionType) :
    ∃ arch : BackupArchiveM,
      backupArchive_post_init sn compressed bp bn bd ct true WriteOutcome.failure =
        Except.ok arch ∧ arch.compressed_size = none := by
  have hv : CompressionType.has_value ct.value = true := by cases ct <;> decide
  unfold backupArchive_post_init
  rw [hv]
  cases compressed <;> exact ⟨_, rfl, rfl⟩

/-- C4 counterexample: a directory holding one 5-byte regular file and one
symlink to a regular 5-byte file. `Path.is_file()` follows symlinks, so
`_get_size` counts the symlink's target as well and reports 10, while the
sum over regular files alone — what the claim states — is 5. -/
theorem get_size_counts_symlink_targets :
    get_size (Except.ok [⟨[['a']], FSKind.file 5⟩,
                         ⟨[['l']], FSKind.symlinkToFile 5⟩]) = 10 ∧
    spec_regular_file_sum [⟨[['a']], FSKind.file 5⟩,
                           ⟨[['l']], FSKind.symlinkToFile 5⟩] = 5 ∧
    get_size (Except.ok [⟨[['a']], FSKind.file 5⟩,
                         ⟨[['l']], FSKind.symlinkToFile 5⟩]) ≠
      spec_regular_file_sum [⟨[['a']], FSKind.file 5⟩,
                             ⟨[['l']], FSKind.symlinkToFile 5⟩] := by
  refine ⟨rfl, rfl, by decide⟩

/-- C4 amended: `_get_size` sums the stat size of every entry that passes
Python's `is_file()` — regular files and symlinks whose target is a regular
file (at the target's size); directories, symlinks to directories and broken
symlinks contribute nothing — and yields 0 on a traversal error. -/
theorem get_size_amended (entries : List FSEntry) (e : PipelineError) :
    get_size (Except.ok entries) =
      (entries.map (fun en => if pyIsFile en.kind then pyStatSize en.kind else 0)).sum ∧
    get_size (Except.error e) = 0 := by
  refine ⟨?_, rfl⟩
  induction entries with
  | nil => rfl
  | cons x xs ih =>
    by_cases h : pyIsFile x.kind <;>
      simp [get_size, List.filter_cons, h] at ih ⊢ <;> omega

/-- The entries `rglob("*")` yields for the spec's example source `Notes/`
holding `a.txt` (5 bytes) and `sub/b.txt` (3 bytes): the file `a.txt`, the
directory `sub`, and the file `sub/b.txt`. -/
def notesEntries : List FSEntry :=
  [⟨[['a', '.', 't', 'x', 't']], FSKind.file 5⟩,
   ⟨[['s', 'u', 'b']], FSKind.directory⟩,
   ⟨[['s', 'u', 'b'], ['b', '.', 't', 'x', 't']], FSKind.file 3⟩]

/-- C5 counterexample: the ZIP branch writes every entry `rglob` yields, so
for the `Notes` example the produced zip has three entries — the two files
plus a directory entry for `Notes/sub` — not the two entries over regular
files only that the claim states. -/
theorem compress_zip_includes_directories :
    (compress_zip ['N', 'o', 't', 'e', 's'] notesEntries).length = 3 ∧
    (spec_zip_regular_files ['N', 'o', 't', 'e', 's'] notesEntries).length = 2 ∧
    compress_zip ['N', 'o', 't', 'e', 's'] notesEntries ≠
      spec_zip_regular_files ['N', 'o', 't', 'e', 's'] notesEntries := by
  refine ⟨rfl, rfl, by decide⟩

/-- C5 amended: the zip holds one entry per entry of the recursive
traversal — directories included as directory entries — each with internal
path `safe_name/<path relative to the source root>`; for the `Notes` example
that is exactly `Notes/a.txt`, the directory entry `Notes/sub` and
`Notes/sub/b.txt`. -/
theorem compress_zip_amended (sn : List Char) (entries : List FSEntry) :
    (compress_zip sn entries).length = entries.length ∧
    (compress_zip sn entries).map ZipEntry.arcname =
      entries.map (fun e => sn :: e.relpath) ∧
    compress_zip ['N', 'o', 't', 'e', 's'] notesEntries =
      [⟨[['N', 'o', 't', 'e', 's'], ['a', '.', 't', 'x', 't']], false⟩,
       ⟨[['N', 'o', 't', 'e', 's'], ['s', 'u', 'b']], true⟩,
       ⟨[['N', 'o', 't', 'e', 's'], ['s', 'u', 'b'], ['b', '.', 't', 'x', 't']], false⟩] := by
  refine ⟨by simp [compress_zip], by simp [compress_zip], by decide⟩

theorem lookup_append_singleton_isSome (d : List (List Char × FileTree))
    (n : List Char) (t : FileTree) :
    ((d ++ [(n, t)]).lookup n).isSome = true := by
  induction d with
  | nil => simp [List.lookup]
  | cons p d ih =>
    rcases p with ⟨k, v⟩
    by_cases h : n == k <;> simp [List.lookup, h, ih]

/-- C6: when `backup_root/safe_name` already exists, `_move` performs no
write: the contents of the backup root are unchanged (the existing copy is
left byte-for-byte as it was) and nothing is raised; consequently running
the copy-mode build a second time against the same root and safe name is a
no-op. -/
theorem move_existing_skips (d : List (List Char × FileTree)) (n : List Char)
    (t t₂ : FileTree) :
    ((d.lookup n).isSome = true → move_op d n t = d) ∧
    move_op (move_op d n t) n t₂ = move_op d n t := by
  constructor
  · intro h
    simp [move_op, h]
  · by_cases h : (d.lookup n).isSome
    · simp [move_op, h]
    · have h' : (d.lookup n).isSome = false := Bool.eq_false_iff.mpr h
      simp only [move_op, h', Bool.false_eq_true, if_false]
      rw [if_pos (lookup_append_singleton_isSome d n t)]

/-- Witness for C6: a backup root already holding `a`; copying `a` again
leaves it unchanged. -/
theorem move_existing_skips_witness :
    (([(['a'], FileTree.file [1])] : List (List Char × FileTree)).lookup ['a']).isSome
      = true ∧
    move_op [(['a'], FileTree.file [1])] ['a'] (FileTree.file [2]) =
      [(['a'], FileTree.file [1])] :=
  ⟨rfl, (move_existing_skips [(['a'], FileTree.file [1])] ['a'] (FileTree.file [2])
    (FileTree.file [2])).1 rfl⟩

/-- C9 counterexample: in the run whose manager initializes but whose
metadata recording raises, `main` opens two catalog sessions (one in `main`
itself, one inside `BackupManager.__init__`) — not one — and closes none of
them, because `backup_mgr.close()` sits after `save_backup_metadata()` in
the same `try` block and there is no `finally`. -/
theorem session_leak_on_record_failure :
    opensOf (main_run true false) = 2 ∧ closesOf (main_run true false) = 0 := by
  decide

/-- C9 amended: each run opens two catalog sessions, and a close happens
only on the fully successful path (exactly one close, of the manager's
session); when manager initialization or metadata recording fails, no
session is closed. -/
theorem session_lifecycle_amended (initOk recordOk : Bool) :
    opensOf (main_run initOk recordOk) = 2 ∧
    closesOf (main_run initOk recordOk) = (if initOk && recordOk then 1 else 0) := by
  cases initOk <;> cases recordOk <;> exact ⟨rfl, rfl⟩

/-- C8: when the source path does not exist or is not a directory,
`SourceDirectory.__post_init__` raises the invalid-source error and
`BackupManager.__init__` re-raises it before any filesystem write and
before any catalog row; when the path is an existing directory, inspection
never raises that error. -/
theorem invalid_source_aborts (pe pid : Bool) (fc : List Char)
    (mtime : Option PyDateTime) (now : PyDateTime) (calcSize : Bool)
    (trav : Except PipelineError (List FSEntry)) (compressed : Bool)
    (ct : CompressionType) (bp : List (List Char)) (bd : PyDateTime)
    (mkdirOk : Bool) (write : WriteOutcome) :
    ((pe = false ∨ pid = false) →
      backupManager_init pe pid fc mtime now calcSize trav compressed ct bp bd
          mkdirOk write =
        (Except.error PipelineError.invalidSource,
         { fsWrites := 0, directoryRows := 0, backupRows := 0 })) ∧
    (pe = true → pid = true →
      ∃ src, sourceDirectory_post_init pe pid fc mtime now calcSize trav =
        Except.ok src) := by
  constructor
  · intro h
    have hcond : (!pe || !pid) = true := by
      rcases h with h | h <;> subst h <;> simp
    simp [backupManager_init, sourceDirectory_post_init, hcond]
  · rintro rfl rfl
    exact ⟨_, rfl⟩

/-- Witness for C8: a path that exists but is not a directory aborts with
the invalid-source error and zero effects; an existing directory passes. -/
theorem invalid_source_aborts_witness :
    (backupManager_init true false ['x'] none ⟨2024, 1, 1, 0, 0, 0⟩ true
        (Except.ok []) true CompressionType.ZIP [] ⟨2024, 1, 1, 0, 0, 0⟩ true
        (WriteOutcome.success none) =
      (Except.error PipelineError.invalidSource,
       { fsWrites := 0, directoryRows := 0, backupRows := 0 })) ∧
    (∃ src, sourceDirectory_post_init true true ['x'] none ⟨2024, 1, 1, 0, 0, 0⟩
        true (Except.ok []) = Except.ok src) :=
  ⟨(invalid_source_aborts true false ['x'] none ⟨2024, 1, 1, 0, 0, 0⟩ true
      (Except.ok []) true CompressionType.ZIP [] ⟨2024, 1, 1, 0, 0, 0⟩ true
      (WriteOutcome.success none)).1 (Or.inr rfl),
   (invalid_source_aborts true true ['x'] none ⟨2024, 1, 1, 0, 0, 0⟩ true
      (Except.ok []) true CompressionType.ZIP [] ⟨2024, 1, 1, 0, 0, 0⟩ true
      (WriteOutcome.success none)).2 rfl rfl⟩

/-- C2: `save_backup_metadata` is atomic over a clean session. If either the
directory insert (`flush`) or the commit of the backup insert fails, the
error propagates and the visible state carries zero new rows in both
tables; on success the committed state gains exactly one directory row and
one backup row whose `directory_id` equals that directory row's generated
key. -/
theorem record_backup_atomic (sess : DBSession) (sp : List (List Char))
    (src : SourceDirectoryM) (arch : BackupArchiveM) (bp : List (List Char))
    (fOk cOk : Bool) (hclean : sess.pending = sess.committed) :
    ((fOk = false ∨ cOk = false) →
      (save_backup_metadata sess sp src arch bp fOk cOk).1 =
          Except.error PipelineError.catalogWriteError ∧
      (save_backup_metadata sess sp src arch bp fOk cOk).2.committed =
          sess.committed ∧
      (save_backup_metadata sess sp src arch bp fOk cOk).2.pending =
          sess.committed) ∧
    (fOk = true → cOk = true →
      ∃ d b,
        (save_backup_metadata sess sp src arch bp fOk cOk).1 = Except.ok () ∧
        (save_backup_metadata sess sp src arch bp fOk cOk).2.committed.directories =
          sess.committed.directories ++ [d] ∧
        (save_backup_metadata sess sp src arch bp fOk cOk).2.committed.backups =
          sess.committed.backups ++ [b] ∧
        b.directory_id = d.id ∧
        (save_backup_metadata sess sp src arch bp fOk cOk).2.pending =
          (save_backup_metadata sess sp src arch bp fOk cOk).2.committed) := by
  constructor
  · rintro (rfl | rfl)
    · exact ⟨rfl, rfl, rfl⟩
    · cases fOk
      · exact ⟨rfl, rfl, rfl⟩
      · exact ⟨rfl, rfl, rfl⟩
  · rintro rfl rfl
    refine ⟨{ id := sess.committed.nextDirectoryId, name := src.name, path := sp,
              size := src.size, date := src.date },
            { id := sess.committed.nextBackupId,
              directory_id := sess.committed.nextDirectoryId,
              backup_name := arch.backup_name, backup_path := bp,
              backup_size := arch.compressed_size, backup_date := arch.backup_date,
              compressed := arch.compressed,
              compression_type := if arch.compressed then
                  some arch.compression_type.value else none,
              compressed_size := arch.compressed_size },
            rfl, ?_, ?_, rfl, rfl⟩ <;>
      simp [save_backup_metadata, insertDirectory, insertBackup, hclean]

/-- Witness for C2: over an empty clean session, a failing directory insert
propagates the catalog error and leaves both tables empty. -/
theorem record_backup_atomic_witness :
    (save_backup_metadata ⟨⟨[], [], 1, 1⟩, ⟨[], [], 1, 1⟩⟩ []
        ⟨['n'], none, ⟨2024, 1, 1, 0, 0, 0⟩⟩
        ⟨['n'], [], true, CompressionType.ZIP, none, ⟨2024, 1, 1, 0, 0, 0⟩⟩
        [] false true).1 = Except.error PipelineError.catalogWriteError ∧
    (save_backup_metadata ⟨⟨[], [], 1, 1⟩, ⟨[], [], 1, 1⟩⟩ []
        ⟨['n'], none, ⟨2024, 1, 1, 0, 0, 0⟩⟩
        ⟨['n'], [], true, CompressionType.ZIP, none, ⟨2024, 1, 1, 0, 0, 0⟩⟩
        [] false true).2.committed = ⟨[], [], 1, 1⟩ ∧
    (save_backup_metadata ⟨⟨[], [], 1, 1⟩, ⟨[], [], 1, 1⟩⟩ []
        ⟨['n'], none, ⟨2024, 1, 1, 0, 0, 0⟩⟩
        ⟨['n'], [], true, CompressionType.ZIP, none, ⟨2024, 1, 1, 0, 0, 0⟩⟩
        [] false true).2.pending = ⟨[], [], 1, 1⟩ :=
  (record_backup_atomic ⟨⟨[], [], 1, 1⟩, ⟨[], [], 1, 1⟩⟩ []
    ⟨['n'], none, ⟨2024, 1, 1, 0, 0, 0⟩⟩
    ⟨['n'], [], true, CompressionType.ZIP, none, ⟨2024, 1, 1, 0, 0, 0⟩⟩
    [] false true rfl).1 (Or.inl rfl)

theorem digitChar_inj_fin : ∀ a b : Fin 10,
    digitChar a.val = digitChar b.val → a = b := by decide

theorem digitChar_mod (x : Nat) : digitChar (x % 10) = digitChar x := by
  unfold digitChar
  rw [Nat.mod_mod_of_dvd x dvd_rfl]

theorem digitChar_eq_mod (x y : Nat) (h : digitChar x = digitChar y) :
    x % 10 = y % 10 := by
  have hx : x % 10 < 10 := Nat.mod_lt _ (by norm_num)
  have hy : y % 10 < 10 := Nat.mod_lt _ (by norm_num)
  have h' := digitChar_inj_fin ⟨x % 10, hx⟩ ⟨y % 10, hy⟩
    (by rw [digitChar_mod, digitChar_mod]; exact h)
  simpa using congrArg Fin.val h'

theorem pad2_inj (a b : Nat) (ha : a < 100) (hb : b < 100)
    (h : pad2 a = pad2 b) : a = b := by
  simp only [pad2, List.cons.injEq, and_true] at h
  obtain ⟨h1, h2⟩ := h
  have e1 := digitChar_eq_mod _ _ h1
  have e2 := digitChar_eq_mod _ _ h2
  omega

theorem get_backup_file_path_name_inj (bp : List (List Char)) (nm₁ nm₂ : List Char)
    (c : Bool) (ct : CompressionType)
    (h : get_backup_file_path bp nm₁ c ct = get_backup_file_path bp nm₂ c ct) :
    nm₁ = nm₂ := by
  unfold get_backup_file_path at h
  cases c with
  | false => simpa using h
  | true => cases ct <;> simpa [CompressionType.value] using h

theorem make_backup_name_seconds_inj (sn : List Char) (t₁ t₂ : PyDateTime)
    (hy : t₁.year = t₂.year) (hmo : t₁.month = t₂.month) (hd : t₁.day = t₂.day)
    (hh : t₁.hour = t₂.hour) (hmi : t₁.minute = t₂.minute)
    (h : make_backup_name none sn t₁ = make_backup_name none sn t₂)
    (hs1 : t₁.second < 60) (hs2 : t₂.second < 60) : t₁.second = t₂.second := by
  simp only [make_backup_name] at h
  have h1 : strftimeBackup t₁ = strftimeBackup t₂ := List.append_cancel_left h
  unfold strftimeBackup at h1
  rw [hy, hmo, hd, hh, hmi] at h1
  have h2 : pad2 t₁.second = pad2 t₂.second := List.append_cancel_left h1
  exact pad2_inj _ _ (by omega) (by omega) h2

/-- C7: the backup name is `safe_name ++ "-" ++` the construction time
formatted `YYYY-MM-DD-HHMMSS`; the backup file is
`backup_root/(backup_name ++ "." ++ ext)` with `ext` being `tar`, `tar.gz`
or `zip` per format when compressed and `backup_root/backup_name` with no
extension otherwise; hence two builds whose construction times differ in
the seconds field get distinct backup file paths. -/
theorem backup_naming (sn : List Char) (bp : List (List Char)) (t : PyDateTime)
    (ct : CompressionType) (c : Bool) (t₁ t₂ : PyDateTime)
    (hy : t₁.year = t₂.year) (hmo : t₁.month = t₂.month) (hd : t₁.day = t₂.day)
    (hh : t₁.hour = t₂.hour) (hmi : t₁.minute = t₂.minute)
    (hs1 : t₁.second < 60) (hs2 : t₂.second < 60)
    (hne : t₁.second ≠ t₂.second) :
    make_backup_name none sn t = make_safe_name sn ++ ['-'] ++ strftimeBackup t ∧
    get_backup_file_path bp (make_backup_name none sn t) true ct =
      bp ++ [make_backup_name none sn t ++ '.' :: ct.value] ∧
    get_backup_file_path bp (make_backup_name none sn t) false ct =
      bp ++ [make_backup_name none sn t] ∧
    (CompressionType.TAR.value = ['t', 'a', 'r'] ∧
     CompressionType.TAR_GZ.value = ['t', 'a', 'r', '.', 'g', 'z'] ∧
     CompressionType.ZIP.value = ['z', 'i', 'p']) ∧
    get_backup_file_path bp (make_backup_name none sn t₁) c ct ≠
      get_backup_file_path bp (make_backup_name none sn t₂) c ct := by
  refine ⟨rfl, ?_, ?_, ⟨rfl, rfl, rfl⟩, ?_⟩
  · cases ct <;> simp [get_backup_file_path, CompressionType.value]
  · simp [get_backup_file_path]
  · intro heq
    exact hne (make_backup_name_seconds_inj sn t₁ t₂ hy hmo hd hh hmi
      (get_backup_file_path_name_inj bp _ _ c ct heq) hs1 hs2)

/-- Witness for C7: two ZIP builds of the same source one second apart land
at distinct backup file paths. -/
theorem backup_naming_witness :
    get_backup_file_path [] (make_backup_name none ['N'] ⟨2024, 1, 2, 3, 4, 5⟩)
        true CompressionType.ZIP ≠
      get_backup_file_path [] (make_backup_name none ['N'] ⟨2024, 1, 2, 3, 4, 6⟩)
        true CompressionType.ZIP :=
  (backup_naming ['N'] [] ⟨2024, 1, 2, 3, 4, 5⟩ CompressionType.ZIP true
    ⟨2024, 1, 2, 3, 4, 5⟩ ⟨2024, 1, 2, 3, 4, 6⟩ rfl rfl rfl rfl rfl
    (by decide) (by decide) (by decide)).2.2.2.2

end DataSafe
